import Mathlib

/-!
Verification of the plate-plot rendering module of ddQuint
(`ddquint/visualization/plate_plots.py`).

The module builds a 96-well composite figure from a list of per-well result
dictionaries: it generates a temporary optimized image per well, places one
subplot per plate position (populated from a result record when one matches,
a placeholder otherwise), saves the composite, and removes the temporary
files in a `finally` block.

The embedding below models:
  - filesystem paths as lists of components (`os.path.join` appends,
    `os.path.dirname` drops the last component; the literal `".."` that
    `_get_data_file_path` inserts stays a component because `os.path.join`
    does not normalize);
  - the external world (which files exist, CSV file contents, whether
    `plt.imread`, `create_well_plot` and `fig.savefig` succeed) as an `Env`
    of oracles, so that every pattern of per-well failure is quantified over;
  - the run's observable effects (temporary files on disk, the Python-side
    `temp_files` list, `fig.savefig` calls) as an explicit `RunState`;
  - Python exceptions as `Except`-style results; the `try`/`except`/`finally`
    of `create_composite_image` becomes explicit control flow.
-/

set_option autoImplicit false

namespace DdQuint

/-- A filesystem path, as the list of its components. -/
abbrev FPath := List String

/-- A dictionary field of a result record: absent (`KeyError` on subscript,
`None` from `.get`), present but of an unusable type (`TypeError` when used
as a path), or present with a usable value. -/
inductive PyField (α : Type) where
  | missing : PyField α
  | badtype : PyField α
  | val : α → PyField α
deriving DecidableEq

/-- A per-well result dictionary, as produced by the upstream clustering
stage and consumed by `plate_plots.py`. `df_filtered` and `target_mapping`
are only ever checked against `None` and passed through to the external
`create_well_plot`, so their payload is irrelevant here. -/
structure ResultRecord where
  well : Option String := none
  sample_name : Option String := none
  graph_path : PyField FPath := .missing
  filename : PyField String := .missing
  df_filtered : Option Unit := none
  target_mapping : Option Unit := none
  has_aneuploidy : Bool := false
  has_buffer_zone : Bool := false
  temp_graph_path : Option FPath := none
deriving DecidableEq

/-- The configuration surface the module reads (`Config.get_instance()`). -/
structure Config where
  PLATE_ROWS : List String
  PLATE_COLS : List String
  WELL_FORMAT : String → Nat → String
  RAW_DATA_DIR_NAME : String
  GRAPHS_DIR_NAME : String

/-- Modelled from the spec: the `Config` class itself is not part of the
supplied source. The spec fixes the plate layout as the 8 rows `A`-`H`
crossed with the 12 columns `1`-`12` and leaves the well-id format string
and the directory names as configuration values, so those stay parameters. -/
def specConfig (wf : String → Nat → String) (rawDir graphsDir : String) : Config :=
  { PLATE_ROWS := ["A", "B", "C", "D", "E", "F", "G", "H"]
    PLATE_COLS := ["1", "2", "3", "4", "5", "6", "7", "8", "9", "10", "11", "12"]
    WELL_FORMAT := wf
    RAW_DATA_DIR_NAME := rawDir
    GRAPHS_DIR_NAME := graphsDir }

/-- External-world oracles: which files exist on disk, the text lines of a
CSV file, whether the external plotting calls succeed, and whether an
`os.remove` of a given file succeeds. -/
structure Env where
  fileExists : FPath → Bool
  csvLines : FPath → List String
  imreadOk : FPath → Bool
  wellPlotOk : String → Bool
  removeOk : FPath → Bool
  savefigOk : Bool

/-- The Python exceptions `create_composite_image` can raise. -/
inductive PyErr where
  | valueError : String → PyErr
  | visualizationError : String → PyErr
deriving DecidableEq

/-- Observable effects of one `create_composite_image` run: temporary well
images currently on disk, the Python-side `temp_files` list, and the
composite files written by `fig.savefig`. -/
structure RunState where
  files : List FPath := []
  temp_files : List FPath := []
  saved : List FPath := []
deriving DecidableEq

/-- Truthiness of an optional Python string (`None` and the empty string are
falsy). -/
def strTruthy : Option String → Bool
  | none => false
  | some s => decide (s ≠ "")

/-- Substring test on character lists, modelling Python's `in` on strings. -/
def containsSub (pat : List Char) (hay : List Char) : Bool :=
  match hay with
  | [] => pat.isEmpty
  | _ :: rest => pat.isPrefixOf hay || containsSub pat rest

/-- Python's `pat in s` on strings. -/
def strContains (s pat : String) : Bool := containsSub pat.data s.data

/-- Split a character list at commas, modelling a CSV line's cells. -/
def splitComma : List Char → List (List Char)
  | [] => [[]]
  | c :: rest =>
      let r := splitComma rest
      if c = ',' then [] :: r
      else
        match r with
        | [] => [[c]]
        | g :: gs => (c :: g) :: gs

/-- The cells of one CSV line. -/
def splitCells (s : String) : List String :=
  (splitComma s.data).map String.mk

/-- A parsed CSV cell is `NaN` when the field is empty (what `pandas` turns
an absent or empty field into). -/
def cellIsNA (c : String) : Bool := c == ""

/-- The header-row test of `_load_and_clean_data`: the line contains a Ch1
amplitude token and a Ch2 amplitude token. -/
def hasAmplitudeHeader (line : String) : Bool :=
  (strContains line "Ch1Amplitude" || strContains line "Ch1 Amplitude") &&
  (strContains line "Ch2Amplitude" || strContains line "Ch2 Amplitude")

/-- Position of a named column in the parsed header (how `pandas` resolves
`df[col]`, first occurrence); `none` exactly when the column is absent,
which is what `col in df.columns` tests. -/
def indexOfCol (name : String) : List String → Option Nat
  | [] => none
  | c :: cs => if c = name then some 0 else (indexOfCol name cs).map (· + 1)

/-- Model of `_load_and_clean_data`: scan for the first line satisfying the header
test (`header_row`); `pd.read_csv(df_file, skiprows=header_row)` then parses
from exactly that line on, so the parsed table is the suffix of the file
starting at the first header line (here obtained with `dropWhile`). Returns
`None` when no header line exists or a required column is absent from the
header; otherwise the table restricted to the `Ch1Amplitude` and
`Ch2Amplitude` columns with every row containing a `NaN` dropped. -/
def load_and_clean_data (lines : List String) : Option (List (String × String)) :=
  match lines.dropWhile (fun l => !hasAmplitudeHeader l) with
  | [] => none
  | header :: rows =>
    match indexOfCol "Ch1Amplitude" (splitCells header),
          indexOfCol "Ch2Amplitude" (splitCells header) with
    | some i1, some i2 =>
        some ((rows.map (fun r =>
          let cells := splitCells r
          (cells.getD i1 "", cells.getD i2 ""))).filter
            (fun pr => !cellIsNA pr.1 && !cellIsNA pr.2))
    | _, _ => none

/-- Model of `_get_data_file_path`: `os.path.join(os.path.dirname(result['graph_path']),
"..", config.RAW_DATA_DIR_NAME, result['filename'])`, with `KeyError` and
`TypeError` caught and `None` returned. -/
def get_data_file_path (result : ResultRecord) (config : Config) : Option FPath :=
  match result.graph_path, result.filename with
  | .val g, .val fn => some (g.dropLast ++ ["..", config.RAW_DATA_DIR_NAME, fn])
  | _, _ => none

/-- The slice of a result record `_extract_clustering_results` passes on
(the remaining entries are forwarded to the external `create_well_plot`
unchanged and unused here). -/
structure ClusteringResults where
  df_filtered : Option Unit
  target_mapping : Option Unit
  has_aneuploidy : Bool
  has_buffer_zone : Bool
deriving DecidableEq

/-- Model of `_extract_clustering_results`. -/
def extract_clustering_results (result : ResultRecord) : ClusteringResults :=
  { df_filtered := result.df_filtered
    target_mapping := result.target_mapping
    has_aneuploidy := result.has_aneuploidy
    has_buffer_zone := result.has_buffer_zone }

/-- Model of `_validate_clustering_results`: reject when `df_filtered` or
`target_mapping` is `None`. -/
def validate_clustering_results (c : ClusteringResults) : Bool :=
  if c.df_filtered = none ∨ c.target_mapping = none then false else true

/-- Model of `_create_temp_well_plot`: the temp path is
`dirname(output_path)/GRAPHS_DIR_NAME/WELL_temp.png`; on success the file is
written, appended to `temp_files`, and returned; any failure of the external
`create_well_plot` is caught and `None` returned. -/
def create_temp_well_plot (well : String) (output_path : FPath) (env : Env)
    (config : Config) (st : RunState) : Option FPath × RunState :=
  let graphs_dir := output_path.dropLast ++ [config.GRAPHS_DIR_NAME]
  let temp_path := graphs_dir ++ [well ++ "_temp.png"]
  if env.wellPlotOk well then
    (some temp_path,
      { st with
        files := if temp_path ∈ st.files then st.files else st.files ++ [temp_path]
        temp_files := st.temp_files ++ [temp_path] })
  else (none, st)

/-- One iteration of the `_generate_well_images` loop: every guard failure
skips the record (`continue`) and leaves record and state unchanged; only a
successful temp-plot creation writes the `temp_graph_path` key. -/
def generate_one (env : Env) (config : Config) (output_path : FPath)
    (st : RunState) (result : ResultRecord) : ResultRecord × RunState :=
  if !strTruthy result.well then (result, st)
  else
    match get_data_file_path result config with
    | none => (result, st)
    | some df_file =>
      if !env.fileExists df_file then (result, st)
      else
        match load_and_clean_data (env.csvLines df_file) with
        | none => (result, st)
        | some _df_clean =>
          if !validate_clustering_results (extract_clustering_results result) then
            (result, st)
          else
            match create_temp_well_plot (result.well.getD "") output_path env config st with
            | (some tp, st2) => ({ result with temp_graph_path := some tp }, st2)
            | (none, st2) => (result, st2)

/-- Model of `_generate_well_images`: the loop over all result records. -/
def generate_well_images (env : Env) (config : Config) (output_path : FPath) :
    List ResultRecord → RunState → List ResultRecord × RunState
  | [], st => ([], st)
  | r :: rs, st =>
    let p := generate_one env config output_path st r
    let q := generate_well_images env config output_path rs p.2
    (p.1 :: q.1, q.2)

/-- Python-dict insertion: overwrite the binding when the key is present,
append a new binding otherwise. -/
def dictInsert (d : List (String × ResultRecord)) (k : String) (v : ResultRecord) :
    List (String × ResultRecord) :=
  if d.any (fun pr => pr.1 == k) then
    d.map (fun pr => if pr.1 == k then (k, v) else pr)
  else d ++ [(k, v)]

/-- Python-dict lookup. -/
def dictLookup (d : List (String × ResultRecord)) (k : String) : Option ResultRecord :=
  (d.find? (fun pr => pr.1 == k)).map Prod.snd

/-- The dict comprehension
`well_results = (r['well']: r for r in results if r.get('well') is not None)`:
later records overwrite earlier ones with the same well id. -/
def build_well_results (results : List ResultRecord) : List (String × ResultRecord) :=
  results.foldl (fun d r =>
    match r.well with
    | some w => dictInsert d w r
    | none => d) []

/-- What a subplot of the composite shows: a per-well image with its title
and spine border (color, linewidth), a centered text message with an
optional color, or the empty-well placeholder with its label, label color
and spine border. -/
inductive WellContent where
  | image : String → String × Nat → WellContent
  | text : String → Option String → WellContent
  | placeholder : String → String → String × Nat → WellContent
deriving DecidableEq

/-- Model of `_apply_well_border`: buffer zone trumps aneuploidy. -/
def apply_well_border (result : ResultRecord) : String × Nat :=
  if result.has_buffer_zone then ("#000000", 1)
  else if result.has_aneuploidy then ("#E6B8E6", 3)
  else ("#B0B0B0", 1)

/-- The path `result.get('temp_graph_path', result.get('graph_path'))`
resolves to. A missing key and a key of unusable type both resolve to no
usable path (an unusable value is falsy or fails the existence check). -/
def resolvedGraphPath (result : ResultRecord) : Option FPath :=
  match result.temp_graph_path with
  | some p => some p
  | none =>
    match result.graph_path with
    | .val p => some p
    | _ => none

/-- Model of `os.path.exists` during composite assembly: the file is a temp image
written by this run, or pre-existed in the environment. -/
def graphExists (env : Env) (files : List FPath) (p : FPath) : Bool :=
  p ∈ files || env.fileExists p

/-- Model of `_populate_data_well`: show the resolved image when it exists and can be
read (title from a truthy `sample_name`, else the well id; border from
`_apply_well_border`); show red `Image Error` text when reading fails; show
`No Image` text when no usable path exists. -/
def populate_data_well (env : Env) (files : List FPath) (well : String)
    (result : ResultRecord) : WellContent :=
  match resolvedGraphPath result with
  | some graph_path =>
    if graphExists env files graph_path then
      if env.imreadOk graph_path then
        let title :=
          match result.sample_name with
          | some s => if s = "" then well else s
          | none => well
        .image title (apply_well_border result)
      else .text "Image Error" (some "red")
    else .text "No Image" none
  | none => .text "No Image" none

/-- Model of `_populate_empty_well`: the gridded placeholder with the well id in gray
and the default light-grey border. -/
def populate_empty_well (well : String) : WellContent :=
  .placeholder well "gray" ("#cccccc", 1)

/-- One subplot of the composite: its plate position, well id and content. -/
structure WellCell where
  rowLabel : String
  colNum : Nat
  well : String
  content : WellContent
deriving DecidableEq

/-- Decimal parse of a string of digits, modelling Python's `int()` on a
well-formed column label. -/
def strToNat? (s : String) : Option Nat :=
  if s.data ≠ [] ∧ s.data.all Char.isDigit then
    some (s.data.foldl (fun n c => n * 10 + (c.toNat - 48)) 0)
  else none

/-- Model of `int(col_labels[-1])`, the upper bound of the column loop. (For
configurations where Python's `int()` would raise, this defaults to `0`;
every claim is settled at configurations where the conversion succeeds.) -/
def colMax (config : Config) : Nat :=
  ((config.PLATE_COLS.getLast?).bind strToNat?).getD 0

/-- Model of `_create_well_subplots`: one subplot per plate position, populated from
the matching result record when the well id is a key of `well_results`, a
placeholder otherwise. -/
def create_well_subplots (env : Env) (config : Config) (files : List FPath)
    (well_results : List (String × ResultRecord)) : List WellCell :=
  config.PLATE_ROWS.flatMap (fun row =>
    (List.range' 1 (colMax config)).map (fun colNum =>
      let well := config.WELL_FORMAT row colNum
      match dictLookup well_results well with
      | some result =>
        { rowLabel := row, colNum := colNum, well := well
          content := populate_data_well env files well result }
      | none =>
        { rowLabel := row, colNum := colNum, well := well
          content := populate_empty_well well }))

/-- Model of `_create_composite_figure`: build the well-results dict, render all
subplots, save the figure. `fig.savefig` may fail, in which case the
exception propagates to the caller; otherwise the composite is recorded as
saved at `output_path`. -/
def create_composite_figure (env : Env) (config : Config)
    (results : List ResultRecord) (output_path : FPath) (st : RunState) :
    Except String (List WellCell × RunState) :=
  let cells := create_well_subplots env config st.files (build_well_results results)
  if env.savefigOk then
    .ok (cells, { st with saved := st.saved ++ [output_path] })
  else .error "savefig failed"

/-- One iteration of the `_cleanup_temp_files` file loop: when the file
exists, `os.remove` is attempted; a failing remove raises, is caught and
logged, and leaves the file on disk. -/
def removeFile (env : Env) (files : List FPath) (p : FPath) : List FPath :=
  if p ∈ files then
    if env.removeOk p then files.filter (fun q => q != p) else files
  else files

/-- Model of `_cleanup_temp_files`: attempt to delete every tracked
temporary file (each failing `os.remove` is caught, leaving that file),
then delete the `temp_graph_path` key from every record. -/
def cleanup_temp_files (env : Env) (st : RunState) (results : List ResultRecord) :
    RunState × List ResultRecord :=
  ({ st with files := st.temp_files.foldl (removeFile env) st.files },
   results.map (fun r => { r with temp_graph_path := none }))

instance : DecidableEq (Except PyErr FPath) := fun a b =>
  match a, b with
  | .ok x, .ok y =>
    if h : x = y then .isTrue (by rw [h]) else .isFalse (by simp [h])
  | .error x, .error y =>
    if h : x = y then .isTrue (by rw [h]) else .isFalse (by simp [h])
  | .ok _, .error _ => .isFalse (by simp)
  | .error _, .ok _ => .isFalse (by simp)

/-- Everything observable about one `create_composite_image` call: the
returned value or raised exception, the result list after the call (the
records are mutated in place in Python), the final effect state, and the
subplot contents of the saved composite (empty when none was saved). -/
structure RunOutcome where
  ret : Except PyErr FPath
  results : List ResultRecord
  state : RunState
  cells : List WellCell
deriving DecidableEq

/-- Model of `create_composite_image`: raise `ValueError` on an empty result list
(before the `try`, so no cleanup runs); otherwise generate the per-well temp
images, build and save the composite, wrap any escaping exception in
`VisualizationError`, and in all cases run `_cleanup_temp_files` in the
`finally` block. -/
def create_composite_image (env : Env) (config : Config)
    (results : List ResultRecord) (output_path : FPath) : RunOutcome :=
  if results = [] then
    { ret := .error (.valueError "No results provided for composite image creation")
      results := results, state := {}, cells := [] }
  else
    let gr := generate_well_images env config output_path results {}
    match create_composite_figure env config gr.1 output_path gr.2 with
    | .ok pr =>
      let cl := cleanup_temp_files env pr.2 gr.1
      { ret := .ok output_path, results := cl.2, state := cl.1, cells := pr.1 }
    | .error e =>
      let cl := cleanup_temp_files env gr.2 gr.1
      { ret := .error (.visualizationError ("Error creating composite image: " ++ e))
        results := cl.2, state := cl.1, cells := [] }

/-- Concrete fixtures used by the witness theorems below: a configuration
with the spec's plate layout and a zero-padded well-id format. -/
def specWellFormat (row : String) (col : Nat) : String :=
  row ++ (if col < 10 then "0" ++ toString col else toString col)

def cfgW : Config := specConfig specWellFormat "Raw" "Graphs"

/-- The raw-data path `_get_data_file_path` derives for `recW` below. -/
def dfFileW : FPath := ["run", "Graphs", "..", "Raw", "A01.csv"]

/-- An environment in which everything succeeds: the raw CSV for well `A01`
exists with a valid amplitude table, and all plotting calls work. -/
def envW : Env :=
  { fileExists := fun p => p == dfFileW
    csvLines := fun _ => ["junk", "Well,Ch1Amplitude,Ch2Amplitude", "1,2,3"]
    imreadOk := fun _ => true
    wellPlotOk := fun _ => true
    removeOk := fun _ => true
    savefigOk := true }

/-- A fully well-formed result record for well `A01`. -/
def recW : ResultRecord :=
  { well := some "A01"
    sample_name := some "S1"
    graph_path := .val ["run", "Graphs", "A01.png"]
    filename := .val "A01.csv"
    df_filtered := some ()
    target_mapping := some () }

/-- An environment in which every image read, every plotting call and
every file removal fails, and every file exists. -/
def envBad : Env :=
  { fileExists := fun _ => true
    csvLines := fun _ => []
    imreadOk := fun _ => false
    wellPlotOk := fun _ => false
    removeOk := fun _ => false
    savefigOk := false }

/-- Like `envW`, except that the final `fig.savefig` fails. -/
def envSaveFail : Env := { envW with savefigOk := false }

/-- Like `envW`, except that the only file on disk is well `A01`'s original
graph image — its raw-data CSV is missing, so temp-image generation skips
the well, while the composite can still fall back to the original image. -/
def envNoRaw : Env := { envW with fileExists := fun p => p == ["run", "Graphs", "A01.png"] }

/-- Like `envW`, except that every `os.remove` fails. -/
def envRemoveFail : Env := { envW with removeOk := fun _ => false }

/-! ## Theorems -/

/-- C2: `_apply_well_border` selects exactly one of three border styles from
the two boolean flags, with buffer zone taking precedence over aneuploidy:
black width 1 for a buffer zone, light purple width 3 for aneuploidy
without a buffer zone, light grey width 1 otherwise. -/
theorem border_three_styles (result : ResultRecord) :
    (result.has_buffer_zone = true → apply_well_border result = ("#000000", 1)) ∧
    (result.has_buffer_zone = false → result.has_aneuploidy = true →
      apply_well_border result = ("#E6B8E6", 3)) ∧
    (result.has_buffer_zone = false → result.has_aneuploidy = false →
      apply_well_border result = ("#B0B0B0", 1)) := by
  refine ⟨?_, ?_, ?_⟩
  · intro h
    simp [apply_well_border, h]
  · intro h1 h2
    simp [apply_well_border, h1, h2]
  · intro h1 h2
    simp [apply_well_border, h1, h2]

theorem border_three_styles_witness :
    apply_well_border { has_buffer_zone := true, has_aneuploidy := true } = ("#000000", 1) ∧
    apply_well_border { has_aneuploidy := true } = ("#E6B8E6", 3) ∧
    apply_well_border ({} : ResultRecord) = ("#B0B0B0", 1) :=
  ⟨(border_three_styles _).1 rfl,
   (border_three_styles _).2.1 rfl rfl,
   (border_three_styles _).2.2 rfl rfl⟩

/-- C6: placeholder fallback is correct for both kinds of missing data. A
well with a result record whose resolved graph path is absent shows the
text `No Image`; so does one whose path does not exist on disk; one whose
image cannot be read shows `Image Error` in red; a well position without a
result record shows the empty placeholder carrying the well id in gray
with the default grey border. -/
theorem placeholder_fallback (env : Env) (files : List FPath) (well : String)
    (result : ResultRecord) :
    (resolvedGraphPath result = none →
      populate_data_well env files well result = .text "No Image" none) ∧
    (∀ p, resolvedGraphPath result = some p → graphExists env files p = false →
      populate_data_well env files well result = .text "No Image" none) ∧
    (∀ p, resolvedGraphPath result = some p → graphExists env files p = true →
      env.imreadOk p = false →
      populate_data_well env files well result = .text "Image Error" (some "red")) ∧
    (populate_empty_well well = .placeholder well "gray" ("#cccccc", 1)) := by
  refine ⟨?_, ?_, ?_, rfl⟩
  · intro h
    simp [populate_data_well, h]
  · intro p hp hg
    simp [populate_data_well, hp, hg]
  · intro p hp hg hi
    simp [populate_data_well, hp, hg, hi]

theorem placeholder_fallback_witness :
    populate_data_well envW [] "B02" { well := some "B02" } = .text "No Image" none ∧
    populate_data_well envBad [] "B03"
        { well := some "B03", graph_path := .val ["g.png"] }
      = .text "Image Error" (some "red") ∧
    populate_empty_well "B04" = .placeholder "B04" "gray" ("#cccccc", 1) :=
  ⟨(placeholder_fallback envW [] "B02" _).1 rfl,
   (placeholder_fallback envBad [] "B03" _).2.2.1 ["g.png"] rfl rfl rfl,
   (placeholder_fallback envW [] "B04" { well := some "B04" }).2.2.2⟩

lemma mem_of_mem_removeFile (env : Env) (files : List FPath) (q p : FPath)
    (h : p ∈ removeFile env files q) : p ∈ files := by
  unfold removeFile at h
  split at h
  · split at h
    · exact (List.mem_filter.mp h).1
    · exact h
  · exact h

lemma mem_of_mem_foldl_removeFile (env : Env) :
    ∀ (temps files : List FPath) (p : FPath),
      p ∈ temps.foldl (removeFile env) files → p ∈ files := by
  intro temps
  induction temps with
  | nil =>
    intro files p h
    simpa using h
  | cons q qs ih =>
    intro files p h
    rw [List.foldl_cons] at h
    exact mem_of_mem_removeFile env files q p (ih (removeFile env files q) p h)

lemma not_mem_removeFile_self (env : Env) (files : List FPath) (p : FPath)
    (hok : env.removeOk p = true) : p ∉ removeFile env files p := by
  unfold removeFile
  by_cases hmem : p ∈ files
  · rw [if_pos hmem, if_pos hok]
    intro hx
    simp [List.mem_filter] at hx
  · rw [if_neg hmem]
    exact hmem

lemma not_mem_foldl_removeFile (env : Env) :
    ∀ (temps files : List FPath) (p : FPath), p ∈ temps → env.removeOk p = true →
      p ∉ temps.foldl (removeFile env) files := by
  intro temps
  induction temps with
  | nil =>
    intro files p hp
    cases hp
  | cons q qs ih =>
    intro files p hp hok hmem
    rw [List.foldl_cons] at hmem
    rcases List.mem_cons.mp hp with h | h
    · subst h
      exact not_mem_removeFile_self env files p hok
        (mem_of_mem_foldl_removeFile env qs (removeFile env files p) p hmem)
    · exact ih (removeFile env files q) p h hok hmem

/-- C3 counterexample: the claim that every recorded temporary file is
deleted before `create_composite_image` finishes is false when an
`os.remove` fails — the exception is caught and logged and the file stays.
In `envRemoveFail` the run records `A01`'s temp image in `temp_files`, yet
that file is still on disk when the call finishes. -/
theorem temp_file_survives_failed_remove :
    ["run", "Graphs", "A01_temp.png"]
        ∈ (create_composite_image envRemoveFail cfgW [recW]
            ["run", "comp.png"]).state.temp_files ∧
    ["run", "Graphs", "A01_temp.png"]
        ∈ (create_composite_image envRemoveFail cfgW [recW]
            ["run", "comp.png"]).state.files := by
  constructor
  · decide
  · decide

/-- C3 (amended): before `create_composite_image` finishes — on the success
path and on the exception path alike, since cleanup runs in the `finally`
block — the deletion of every file recorded in `temp_files` is attempted,
and every recorded file whose `os.remove` succeeds is gone from disk; a
failing `os.remove` is caught and logged, so only removability of the file
itself is assumed. -/
theorem temp_files_removed_when_removable (env : Env) (config : Config)
    (results : List ResultRecord) (output_path : FPath) (p : FPath)
    (hp : p ∈ (create_composite_image env config results output_path).state.temp_files)
    (hok : env.removeOk p = true) :
    p ∉ (create_composite_image env config results output_path).state.files := by
  cases results with
  | nil =>
    simp [create_composite_image] at hp
  | cons r rs =>
    rw [create_composite_image, if_neg (List.cons_ne_nil r rs)] at hp ⊢
    dsimp only [] at hp ⊢
    revert hp
    cases hF : create_composite_figure env config
        (generate_well_images env config output_path (r :: rs) {}).1 output_path
        (generate_well_images env config output_path (r :: rs) {}).2 with
    | ok pr =>
      intro hp
      simp only [cleanup_temp_files] at hp ⊢
      exact not_mem_foldl_removeFile env _ _ p hp hok
    | error e =>
      intro hp
      simp only [cleanup_temp_files] at hp ⊢
      exact not_mem_foldl_removeFile env _ _ p hp hok

theorem temp_files_removed_when_removable_witness :
    ["run", "Graphs", "A01_temp.png"]
        ∈ (create_composite_image envW cfgW [recW] ["run", "comp.png"]).state.temp_files ∧
    ["run", "Graphs", "A01_temp.png"]
        ∉ (create_composite_image envW cfgW [recW] ["run", "comp.png"]).state.files :=
  ⟨by decide,
   temp_files_removed_when_removable envW cfgW [recW] ["run", "comp.png"] _
     (by decide) (by decide)⟩

lemma generate_one_clear (env : Env) (config : Config) (output_path : FPath)
    (st : RunState) (r : ResultRecord) :
    { (generate_one env config output_path st r).1 with temp_graph_path := none }
      = { r with temp_graph_path := none } := by
  unfold generate_one
  repeat' split
  all_goals rfl

lemma generate_clear (env : Env) (config : Config) (output_path : FPath) :
    ∀ (rs : List ResultRecord) (st : RunState),
      (generate_well_images env config output_path rs st).1.map
          (fun x => { x with temp_graph_path := none })
        = rs.map (fun x => { x with temp_graph_path := none }) := by
  intro rs
  induction rs with
  | nil =>
    intro st
    rfl
  | cons r rs ih =>
    intro st
    show ((generate_one env config output_path st r).1
        :: (generate_well_images env config output_path rs
              (generate_one env config output_path st r).2).1).map _
      = _
    rw [List.map_cons, List.map_cons, generate_one_clear, ih]

lemma clear_eq_self (r : ResultRecord) (h : r.temp_graph_path = none) :
    { r with temp_graph_path := none } = r := by
  cases r
  simp_all

/-- C4: the only field `create_composite_image` ever writes in a result
record is the transient `temp_graph_path` key: after the call (normal
return or exception) every record equals its input value with
`temp_graph_path` cleared, so every other field is untouched; when no input
record carried the transient key, the result list is exactly the input. -/
theorem results_frame (env : Env) (config : Config)
    (results : List ResultRecord) (output_path : FPath) :
    (create_composite_image env config results output_path).results
        = results.map (fun r => { r with temp_graph_path := none }) ∧
    ((∀ r ∈ results, r.temp_graph_path = none) →
      (create_composite_image env config results output_path).results = results) := by
  have h1 : (create_composite_image env config results output_path).results
      = results.map (fun r => { r with temp_graph_path := none }) := by
    cases results with
    | nil => rfl
    | cons r rs =>
      rw [create_composite_image, if_neg (List.cons_ne_nil r rs)]
      dsimp only []
      cases hF : create_composite_figure env config
          (generate_well_images env config output_path (r :: rs) {}).1 output_path
          (generate_well_images env config output_path (r :: rs) {}).2 with
      | ok pr =>
        simp only [cleanup_temp_files]
        exact generate_clear env config output_path (r :: rs) {}
      | error e =>
        simp only [cleanup_temp_files]
        exact generate_clear env config output_path (r :: rs) {}
  refine ⟨h1, fun hnone => ?_⟩
  rw [h1]
  calc results.map (fun r => { r with temp_graph_path := none })
      = results.map id := List.map_congr_left (fun r hr => clear_eq_self r (hnone r hr))
    _ = results := List.map_id results

theorem results_frame_witness :
    (∀ r ∈ [recW], r.temp_graph_path = none) ∧
    (create_composite_image envW cfgW [recW] ["run", "comp.png"]).results = [recW] :=
  ⟨by decide,
   (results_frame envW cfgW [recW] ["run", "comp.png"]).2 (by decide)⟩

/-- C1 counterexample: the claim is false on the code in two ways. First,
the hard error is not raised only on an empty result list: a failing
`fig.savefig` on a non-empty list escapes as a `VisualizationError`.
Second, a well whose temp-image generation was skipped (here: its raw-data
CSV is missing) is not rendered as a placeholder — `_populate_data_well`
falls back to `result.get('graph_path')`, so the well `A01` subplot shows
the original graph image. -/
theorem composite_hard_error_counterexample :
    (create_composite_image envSaveFail cfgW [recW] ["p"]).ret
        = .error (.visualizationError "Error creating composite image: savefig failed") ∧
    (create_composite_image envNoRaw cfgW [recW] ["run", "comp.png"]).cells[0]?
        = some { rowLabel := "A", colNum := 1, well := "A01",
                 content := .image "S1" ("#B0B0B0", 1) } := by
  constructor
  · decide
  · decide

/-- C1 (amended): `create_composite_image` raises a hard error exactly when
the input result list is empty (a `ValueError`) or the final composite save
itself fails (escaping as a `VisualizationError`). For every non-empty
result list whose composite save succeeds, a missing raw-data file, a
missing required column or a per-well rendering failure never aborts the
call — the affected well is skipped (it receives no temp image) and the
function still returns normally; the skipped well's subplot is not
necessarily a placeholder: it falls back to the well's original graph image
when that exists and is readable, and shows the `No Image` text only when
no usable image remains. -/
theorem composite_error_cases (env : Env) (config : Config)
    (results : List ResultRecord) (output_path : FPath) :
    (results = [] →
      (create_composite_image env config results output_path).ret
        = .error (.valueError "No results provided for composite image creation")) ∧
    (results ≠ [] → env.savefigOk = true →
      (create_composite_image env config results output_path).ret = .ok output_path) ∧
    (results ≠ [] → env.savefigOk = false →
      (create_composite_image env config results output_path).ret
        = .error (.visualizationError "Error creating composite image: savefig failed")) ∧
    (∀ files well r p, r.temp_graph_path = none → r.graph_path = .val p →
      graphExists env files p = true → env.imreadOk p = true →
      populate_data_well env files well r
        = .image (match r.sample_name with
                  | some s => if s = "" then well else s
                  | none => well)
                 (apply_well_border r)) ∧
    (∀ files well r, resolvedGraphPath r = none →
      populate_data_well env files well r = .text "No Image" none) := by
  refine ⟨?_, ?_, ?_, ?_, ?_⟩
  · intro h
    subst h
    rfl
  · intro h hs
    obtain ⟨r, rs, rfl⟩ := List.exists_cons_of_ne_nil h
    rw [create_composite_image, if_neg (List.cons_ne_nil r rs)]
    simp only [create_composite_figure, hs, if_true]
  · intro h hsf
    obtain ⟨r, rs, rfl⟩ := List.exists_cons_of_ne_nil h
    rw [create_composite_image, if_neg (List.cons_ne_nil r rs)]
    simp only [create_composite_figure, hsf]
    rfl
  · intro files well r p ht hg hex hread
    have hres : resolvedGraphPath r = some p := by
      simp [resolvedGraphPath, ht, hg]
    simp [populate_data_well, hres, hex, hread]
  · intro files well r h
    simp [populate_data_well, h]

theorem composite_error_cases_witness :
    (create_composite_image envW cfgW [] ["p"]).ret
        = .error (.valueError "No results provided for composite image creation") ∧
    (create_composite_image envW cfgW [recW] ["p"]).ret = .ok ["p"] ∧
    (create_composite_image envSaveFail cfgW [recW] ["p"]).ret
        = .error (.visualizationError "Error creating composite image: savefig failed") ∧
    populate_data_well envNoRaw [] "A01" recW
        = .image "S1" ("#B0B0B0", 1) :=
  ⟨(composite_error_cases envW cfgW [] ["p"]).1 rfl,
   (composite_error_cases envW cfgW [recW] ["p"]).2.1 (by decide) rfl,
   (composite_error_cases envSaveFail cfgW [recW] ["p"]).2.2.1 (by decide) rfl,
   (composite_error_cases envNoRaw cfgW [] ["p"]).2.2.2.1 [] "A01" recW
     ["run", "Graphs", "A01.png"] (by decide) (by decide) (by decide) (by decide)⟩

lemma create_temp_saved (well : String) (output_path : FPath) (env : Env)
    (config : Config) (st : RunState) :
    (create_temp_well_plot well output_path env config st).2.saved = st.saved := by
  unfold create_temp_well_plot
  dsimp only []
  split <;> rfl

lemma generate_one_saved (env : Env) (config : Config) (output_path : FPath)
    (st : RunState) (r : ResultRecord) :
    (generate_one env config output_path st r).2.saved = st.saved := by
  unfold generate_one
  repeat' split
  all_goals try rfl
  all_goals
    rename_i heq
    have h := create_temp_saved (r.well.getD "") output_path env config st
    rw [heq] at h
    exact h

lemma generate_saved (env : Env) (config : Config) (output_path : FPath) :
    ∀ (rs : List ResultRecord) (st : RunState),
      (generate_well_images env config output_path rs st).2.saved = st.saved := by
  intro rs
  induction rs with
  | nil =>
    intro st
    rfl
  | cons r rs ih =>
    intro st
    show (generate_well_images env config output_path rs
        (generate_one env config output_path st r).2).2.saved = st.saved
    rw [ih, generate_one_saved]

/-- C8: on success the call saves exactly one composite image, at the
caller-supplied output path, and returns that same path unchanged. -/
theorem composite_saved_once (env : Env) (config : Config)
    (results : List ResultRecord) (output_path : FPath)
    (hs : env.savefigOk = true) (hne : results ≠ []) :
    (create_composite_image env config results output_path).ret = .ok output_path ∧
    (create_composite_image env config results output_path).state.saved
      = [output_path] := by
  obtain ⟨r, rs, rfl⟩ := List.exists_cons_of_ne_nil hne
  rw [create_composite_image, if_neg (List.cons_ne_nil r rs)]
  simp only [create_composite_figure, hs, if_true, cleanup_temp_files]
  refine ⟨trivial, ?_⟩
  rw [generate_saved]
  rfl

theorem composite_saved_once_witness :
    (create_composite_image envW cfgW [recW] ["p"]).ret = .ok ["p"] ∧
    (create_composite_image envW cfgW [recW] ["p"]).state.saved = [["p"]] :=
  composite_saved_once envW cfgW [recW] ["p"] rfl (by decide)

lemma find?_map_overwrite (k : String) (v : ResultRecord) :
    ∀ (d : List (String × ResultRecord)),
      d.any (fun pr => pr.1 == k) = true →
      (d.map (fun pr => if pr.1 == k then (k, v) else pr)).find?
          (fun pr => pr.1 == k) = some (k, v) := by
  intro d
  induction d with
  | nil =>
    intro h
    simp at h
  | cons p ps ih =>
    intro h
    rw [List.map_cons]
    by_cases hp : p.1 = k
    · rw [if_pos (by simpa using hp)]
      exact List.find?_cons_of_pos _ (by simp)
    · rw [if_neg (by simpa using hp)]
      rw [List.find?_cons_of_neg _ (by simpa using hp)]
      have h2 : ps.any (fun pr => pr.1 == k) = true := by
        simpa [List.any_cons, hp] using h
      exact ih h2

lemma find?_map_other (k k' : String) (v : ResultRecord) (h : k' ≠ k) :
    ∀ (d : List (String × ResultRecord)),
      (d.map (fun pr => if pr.1 == k then (k, v) else pr)).find?
          (fun pr => pr.1 == k')
        = d.find? (fun pr => pr.1 == k') := by
  intro d
  induction d with
  | nil => rfl
  | cons p ps ih =>
    rw [List.map_cons]
    by_cases hp : p.1 = k
    · have hk : ¬(k = k') := fun hh => h hh.symm
      have hp' : ¬(p.1 = k') := by
        rw [hp]
        exact hk
      rw [if_pos (by simpa using hp)]
      rw [List.find?_cons_of_neg _ (by simpa using hk)]
      rw [List.find?_cons_of_neg _ (by simpa using hp')]
      exact ih
    · rw [if_neg (by simpa using hp)]
      by_cases hq : p.1 = k'
      · rw [List.find?_cons_of_pos _ (by simpa using hq)]
        rw [List.find?_cons_of_pos _ (by simpa using hq)]
      · rw [List.find?_cons_of_neg _ (by simpa using hq)]
        rw [List.find?_cons_of_neg _ (by simpa using hq)]
        exact ih

lemma dictLookup_dictInsert_self (d : List (String × ResultRecord))
    (k : String) (v : ResultRecord) :
    dictLookup (dictInsert d k v) k = some v := by
  unfold dictInsert dictLookup
  by_cases hany : d.any (fun pr => pr.1 == k) = true
  · rw [if_pos hany, find?_map_overwrite k v d hany]
    rfl
  · rw [if_neg hany, List.find?_append]
    have hnone : d.find? (fun pr => pr.1 == k) = none := by
      rw [List.find?_eq_none]
      intro x hx hpx
      exact hany (List.any_eq_true.mpr ⟨x, hx, hpx⟩)
    simp [hnone]

lemma dictLookup_dictInsert_other (d : List (String × ResultRecord))
    (k k' : String) (v : ResultRecord) (h : k' ≠ k) :
    dictLookup (dictInsert d k v) k' = dictLookup d k' := by
  unfold dictInsert dictLookup
  by_cases hany : d.any (fun pr => pr.1 == k) = true
  · rw [if_pos hany, find?_map_other k k' v h d]
  · rw [if_neg hany, List.find?_append]
    have hk : ¬(k = k') := fun hh => h hh.symm
    cases hd : d.find? (fun pr => pr.1 == k') with
    | some x => simp [hd]
    | none => simp [hd, hk]

lemma build_lookup_aux (w : String) :
    ∀ (rs : List ResultRecord) (d : List (String × ResultRecord)),
      dictLookup
          (rs.foldl (fun d r =>
            match r.well with
            | some v => dictInsert d v r
            | none => d) d) w
        = match (rs.filter (fun r => r.well == some w)).getLast? with
          | some r => some r
          | none => dictLookup d w := by
  intro rs
  induction rs with
  | nil =>
    intro d
    rfl
  | cons r rs ih =>
    intro d
    rw [List.foldl_cons, ih, List.filter_cons]
    by_cases hr : r.well == some w
    · have hw : r.well = some w := by simpa using hr
      rw [if_pos hr]
      cases hfil : rs.filter (fun x => x.well == some w) with
      | nil =>
        simp only [List.getLast?_singleton]
        rw [hw]
        simp [dictLookup_dictInsert_self]
      | cons y t =>
        rw [List.getLast?_cons_cons]
        have : ∃ g, (y :: t).getLast? = some g := by
          cases hgl : (y :: t).getLast? with
          | none => exact absurd (List.getLast?_eq_none_iff.mp hgl) (List.cons_ne_nil y t)
          | some g => exact ⟨g, rfl⟩
        obtain ⟨g, hg⟩ := this
        rw [hfil] at *
        rw [hg]
    · rw [if_neg hr]
      cases hfil : rs.filter (fun x => x.well == some w) with
      | nil =>
        simp only [List.getLast?_nil]
        cases hw : r.well with
        | none => rfl
        | some w' =>
          have hne : w ≠ w' := by
            intro hh
            apply hr
            rw [hw, hh]
            exact beq_self_eq_true (some w')
          simp [dictLookup_dictInsert_other d w' w r hne]
      | cons y t =>
        have : ∃ g, (y :: t).getLast? = some g := by
          cases hgl : (y :: t).getLast? with
          | none => exact absurd (List.getLast?_eq_none_iff.mp hgl) (List.cons_ne_nil y t)
          | some g => exact ⟨g, rfl⟩
        obtain ⟨g, hg⟩ := this
        rw [hg]

/-- C9: when several result records carry the same well id, the record
occurring last in the input list determines that well's entry in the
well-results mapping the composite is built from (later records overwrite
earlier ones in the dict comprehension). -/
theorem last_record_wins (results : List ResultRecord) (w : String) :
    dictLookup (build_well_results results) w
      = (results.filter (fun r => r.well == some w)).getLast? := by
  rw [build_well_results, build_lookup_aux w results []]
  cases hfil : (results.filter (fun r => r.well == some w)).getLast? with
  | none => rfl
  | some r => rfl

/-- The malformedness conditions of C10 on a result record: falsy `well`
key; missing or unusable `graph_path` or `filename`; `df_filtered` or
`target_mapping` equal to `None`. -/
def malformed (r : ResultRecord) : Prop :=
  strTruthy r.well = false ∨
  r.graph_path = .missing ∨ r.graph_path = .badtype ∨
  r.filename = .missing ∨ r.filename = .badtype ∨
  r.df_filtered = none ∨ r.target_mapping = none

instance (r : ResultRecord) : Decidable (malformed r) := by
  unfold malformed
  infer_instance

lemma generate_one_skip (env : Env) (config : Config) (output_path : FPath)
    (st : RunState) (r : ResultRecord)
    (h : strTruthy r.well = false ∨ get_data_file_path r config = none ∨
         validate_clustering_results (extract_clustering_results r) = false) :
    generate_one env config output_path st r = (r, st) := by
  unfold generate_one
  by_cases hw : strTruthy r.well = true
  · rcases h with h | h | h
    · rw [hw] at h
      cases h
    · simp [hw, h]
    · cases hg : get_data_file_path r config with
      | none => simp [hw, hg]
      | some df =>
        by_cases he : env.fileExists df = true
        · cases hl : load_and_clean_data (env.csvLines df) with
          | none => simp [hw, hg, he, hl]
          | some dfc => simp [hw, hg, he, hl, h]
        · simp [hw, hg, he]
  · simp [hw]

lemma generate_one_malformed (env : Env) (config : Config) (output_path : FPath)
    (st : RunState) (r : ResultRecord) (h : malformed r) :
    generate_one env config output_path st r = (r, st) := by
  apply generate_one_skip
  rcases h with h | h | h | h | h | h | h
  · exact Or.inl h
  · exact Or.inr (Or.inl (by simp [get_data_file_path, h]))
  · exact Or.inr (Or.inl (by simp [get_data_file_path, h]))
  · refine Or.inr (Or.inl ?_)
    cases hg : r.graph_path <;> simp [get_data_file_path, h, hg]
  · refine Or.inr (Or.inl ?_)
    cases hg : r.graph_path <;> simp [get_data_file_path, h, hg]
  · exact Or.inr (Or.inr (by
      simp [validate_clustering_results, extract_clustering_results, h]))
  · exact Or.inr (Or.inr (by
      simp [validate_clustering_results, extract_clustering_results, h]))

/-- C10: a malformed result record — falsy `well`, missing or unusable
`graph_path` or `filename` (the `KeyError`/`TypeError` is caught), or
`df_filtered`/`target_mapping` equal to `None` — is skipped by
`_generate_well_images` with no exception: the record at its position
comes out exactly as it went in, so in particular it never receives a
`temp_graph_path` key. -/
theorem malformed_record_skipped (env : Env) (config : Config) (output_path : FPath) :
    ∀ (results : List ResultRecord) (st : RunState) (i : Nat) (r : ResultRecord),
      results[i]? = some r → malformed r →
      (generate_well_images env config output_path results st).1[i]? = some r := by
  intro results
  induction results with
  | nil =>
    intro st i r h _
    simp at h
  | cons x xs ih =>
    intro st i r h hm
    cases i with
    | zero =>
      rw [List.getElem?_cons_zero] at h
      have hx : x = r := by injection h
      show ((generate_one env config output_path st x).1
          :: (generate_well_images env config output_path xs
                (generate_one env config output_path st x).2).1)[0]? = some r
      rw [generate_one_malformed env config output_path st x (by rw [hx]; exact hm)]
      rw [List.getElem?_cons_zero, hx]
    | succ n =>
      rw [List.getElem?_cons_succ] at h
      show ((generate_one env config output_path st x).1
          :: (generate_well_images env config output_path xs
                (generate_one env config output_path st x).2).1)[n+1]? = some r
      rw [List.getElem?_cons_succ]
      exact ih _ n r h hm

/-- The 96 positions of the spec's 8 by 12 plate: rows `A`-`H` crossed with
columns 1-12. -/
def gridPositions : List (String × Nat) :=
  ["A", "B", "C", "D", "E", "F", "G", "H"].flatMap (fun row =>
    (List.range' 1 12).map (fun n => (row, n)))

/-- C5: the composite contains exactly one subplot for each of the 96
positions of the fixed 8 by 12 plate (rows `A`-`H` crossed with columns
1-12, each position exactly once); the subplot whose well id matches a
record of the well-results mapping is populated from that record, and every
other one is rendered as the empty placeholder. -/
theorem plate_grid (wf : String → Nat → String) (rawDir graphsDir : String)
    (env : Env) (files : List FPath) (results : List ResultRecord) :
    (create_well_subplots env (specConfig wf rawDir graphsDir) files
        (build_well_results results)).map (fun c => (c.rowLabel, c.colNum))
      = gridPositions ∧
    gridPositions.length = 96 ∧
    gridPositions.Nodup ∧
    (∀ c ∈ create_well_subplots env (specConfig wf rawDir graphsDir) files
        (build_well_results results),
      c.well = wf c.rowLabel c.colNum ∧
      c.content = match dictLookup (build_well_results results) c.well with
        | some r => populate_data_well env files c.well r
        | none => populate_empty_well c.well) := by
  refine ⟨?_, by decide, by decide, ?_⟩
  · rw [create_well_subplots]
    show (List.flatMap _ _).map _ = _
    rw [List.map_flatMap]
    unfold gridPositions
    apply congrArg
    funext row
    rw [List.map_map]
    apply List.map_congr_left
    intro n _
    dsimp only [Function.comp]
    cases dictLookup (build_well_results results)
        ((specConfig wf rawDir graphsDir).WELL_FORMAT row n) <;> rfl
  · intro c hc
    rw [create_well_subplots, List.mem_flatMap] at hc
    obtain ⟨row, hrow, hc⟩ := hc
    rw [List.mem_map] at hc
    obtain ⟨n, hn, rfl⟩ := hc
    dsimp only []
    cases hd : dictLookup (build_well_results results)
        ((specConfig wf rawDir graphsDir).WELL_FORMAT row n) with
    | some r0 =>
      refine ⟨rfl, ?_⟩
      dsimp only []
      rw [hd]
    | none =>
      refine ⟨rfl, ?_⟩
      dsimp only []
      rw [hd]

theorem plate_grid_witness :
    ({ rowLabel := "A", colNum := 1, well := "A01",
       content := WellContent.placeholder "A01" "gray" ("#cccccc", 1) } : WellCell)
        ∈ create_well_subplots envW (specConfig specWellFormat "Raw" "Graphs") []
            (build_well_results []) ∧
    ({ rowLabel := "A", colNum := 1, well := "A01",
       content := WellContent.placeholder "A01" "gray" ("#cccccc", 1) } : WellCell).content
      = populate_empty_well "A01" :=
  ⟨by decide,
   ((plate_grid specWellFormat "Raw" "Graphs" envW [] []).2.2.2 _ (by decide)).2⟩

lemma indexOfCol_eq_none_iff (name : String) :
    ∀ (cs : List String), indexOfCol name cs = none ↔ name ∉ cs := by
  intro cs
  induction cs with
  | nil => simp [indexOfCol]
  | cons c cs ih =>
    by_cases h : c = name
    · simp [indexOfCol, h]
    · simp only [indexOfCol, if_neg h, Option.map_eq_none', List.mem_cons, ih]
      constructor
      · intro hn hmem
        rcases hmem with hmem | hmem
        · exact h hmem.symm
        · exact hn hmem
      · intro hn hmem
        exact hn (Or.inr hmem)

lemma indexOfCol_some_mem (name : String) (cs : List String) (i : Nat)
    (h : indexOfCol name cs = some i) : name ∈ cs := by
  by_contra hmem
  rw [(indexOfCol_eq_none_iff name cs).mpr hmem] at h
  cases h

lemma find?_eq_dropWhile_head (p : String → Bool) :
    ∀ (l : List String), l.find? p = (l.dropWhile (fun x => !p x)).head? := by
  intro l
  induction l with
  | nil => rfl
  | cons a l ih =>
    by_cases h : p a = true
    · rw [List.find?_cons_of_pos _ h, List.dropWhile_cons]
      simp [h]
    · rw [List.find?_cons_of_neg _ h, List.dropWhile_cons]
      simp [h, ih]

/-- C7: `_load_and_clean_data` returns `None` exactly when no line of the
file contains both a Ch1 and a Ch2 amplitude header token, or when the
parsed table (whose header is the first such line) lacks a required
`Ch1Amplitude` or `Ch2Amplitude` column; otherwise it returns the table
restricted to exactly those two amplitude columns with every row containing
a `NaN` removed. -/
theorem load_clean_characterization (lines : List String) :
    (load_and_clean_data lines = none ↔
      (∀ l ∈ lines, hasAmplitudeHeader l = false) ∨
      (∃ hline, lines.find? hasAmplitudeHeader = some hline ∧
        ("Ch1Amplitude" ∉ splitCells hline ∨ "Ch2Amplitude" ∉ splitCells hline))) ∧
    (∀ hline i1 i2,
      lines.find? hasAmplitudeHeader = some hline →
      indexOfCol "Ch1Amplitude" (splitCells hline) = some i1 →
      indexOfCol "Ch2Amplitude" (splitCells hline) = some i2 →
      load_and_clean_data lines
        = some (((lines.dropWhile (fun l => !hasAmplitudeHeader l)).tail.map (fun r =>
            ((splitCells r).getD i1 "", (splitCells r).getD i2 ""))).filter
              (fun pr => !cellIsNA pr.1 && !cellIsNA pr.2))) := by
  constructor
  · rw [load_and_clean_data]
    cases hD : lines.dropWhile (fun l => !hasAmplitudeHeader l) with
    | nil =>
      refine iff_of_true rfl (Or.inl fun l hl => ?_)
      have h2 := List.dropWhile_eq_nil_iff.mp hD l hl
      simpa using h2
    | cons header rows =>
      dsimp only []
      have hfind : lines.find? hasAmplitudeHeader = some header := by
        rw [find?_eq_dropWhile_head, hD]
        rfl
      have hp : hasAmplitudeHeader header = true := List.find?_some hfind
      have hmem : header ∈ lines := List.mem_of_find?_eq_some hfind
      cases h1 : indexOfCol "Ch1Amplitude" (splitCells header) with
      | none =>
        exact iff_of_true rfl
          (Or.inr ⟨header, hfind, Or.inl ((indexOfCol_eq_none_iff _ _).mp h1)⟩)
      | some i1 =>
        cases h2 : indexOfCol "Ch2Amplitude" (splitCells header) with
        | none =>
          exact iff_of_true rfl
            (Or.inr ⟨header, hfind, Or.inr ((indexOfCol_eq_none_iff _ _).mp h2)⟩)
        | some i2 =>
          refine iff_of_false (by simp) ?_
          rintro (hall | ⟨hl, hfind2, hmiss⟩)
          · rw [hall header hmem] at hp
            cases hp
          · rw [hfind] at hfind2
            have he : header = hl := by injection hfind2
            subst he
            rcases hmiss with hm | hm
            · exact hm (indexOfCol_some_mem _ _ _ h1)
            · exact hm (indexOfCol_some_mem _ _ _ h2)
  · intro hline i1 i2 hfind h1 h2
    rw [find?_eq_dropWhile_head] at hfind
    cases hD : lines.dropWhile (fun l => !hasAmplitudeHeader l) with
    | nil =>
      rw [hD] at hfind
      cases hfind
    | cons header rows =>
      rw [hD] at hfind
      have he : hline = header := by
        have : some header = some hline := hfind
        injection this with h3
        exact h3.symm
      subst he
      rw [load_and_clean_data, hD]
      dsimp only []
      rw [h1, h2]
      rfl

theorem load_clean_characterization_witness :
    load_and_clean_data ["junk", "Well,Ch1Amplitude,Ch2Amplitude", "1,2,3", "6,,7"]
        = some [("2", "3")] ∧
    load_and_clean_data ["no header here"] = none :=
  ⟨((load_clean_characterization
        ["junk", "Well,Ch1Amplitude,Ch2Amplitude", "1,2,3", "6,,7"]).2
      "Well,Ch1Amplitude,Ch2Amplitude" 1 2 (by decide) (by decide) (by decide)).trans
    (by decide),
   (load_clean_characterization ["no header here"]).1.mpr (Or.inl (by decide))⟩

theorem malformed_record_skipped_witness :
    malformed { well := some "A02", graph_path := .missing, df_filtered := some (),
                target_mapping := some () } ∧
    (generate_well_images envW cfgW ["p"]
        [{ well := some "A02", graph_path := .missing, df_filtered := some (),
           target_mapping := some () }] {}).1[0]?
      = some { well := some "A02", graph_path := .missing, df_filtered := some (),
               target_mapping := some () } :=
  ⟨by decide,
   malformed_record_skipped envW cfgW ["p"] _ {} 0 _ (by decide) (by decide)⟩

end DdQuint
